import Mathlib

/-!
Shallow embedding of the live-data synchronization engine of the
nz-traffic-cams repository (src/services/trafficService.ts), together with
theorems settling the specification claims about it.

The service fetches an XML camera feed through a pool of relay proxies,
parses it with the browser DOMParser, normalizes each camera node into a
TrafficCamera record, and falls back to a fixed catalog when every proxy
attempt fails.  External effects (the network, the DOM parser, Math.random,
the clock) are modelled as explicit inputs; everything the repository's own
code computes is translated directly from the TypeScript source.
-/

namespace NZTrafficCams

/-! ## Domain types (src/types.ts / src/unnamed/part_001) -/

/-- CameraType from types.ts: 'feed' | 'red-light' | 'spot-speed' | 'point-to-point'. -/
inductive CameraType where
  | feed
  | redLight
  | spotSpeed
  | pointToPoint
deriving DecidableEq, Repr

/-- Severity from types.ts: 'low' | 'medium' | 'high' | 'critical'. -/
inductive Severity where
  | low
  | medium
  | high
  | critical
deriving DecidableEq, Repr

/-- Trend from types.ts: 'improving' | 'stable' | 'escalating'. -/
inductive Trend where
  | improving
  | stable
  | escalating
deriving DecidableEq, Repr

/-! ## A model of JavaScript numbers as produced by parseFloat -/

/-- A JavaScript number as relevant to this service: NaN, an infinity, or a
finite value.  A finite value is kept as the exact decimal the text denoted,
a numerator over the power of ten 10 ^ scale: the service never does
arithmetic on these numbers, it only parses them, tests them for zero/NaN
truthiness, and stores them, so the exact-decimal carrier is faithful. -/
inductive JSNum where
  | nan
  | inf (neg : Bool)
  | finite (num : Int) (scale : Nat)
deriving DecidableEq, Repr

/-- JavaScript numeric truthiness: NaN and 0 (and -0) are falsy, everything
else, including the infinities, is truthy.  This is the test the source
applies in the form `if (lat && lng)`. -/
def jsTruthy : JSNum → Bool
  | JSNum.nan => false
  | JSNum.inf _ => true
  | JSNum.finite num _ => num != 0

/-- JavaScript whitespace characters skipped by parseFloat (ASCII portion:
tab, LF, VT, FF, CR, space). -/
def isJsSpace (c : Char) : Bool :=
  c == ' ' || c.toNat == 9 || c.toNat == 10 || c.toNat == 11 ||
  c.toNat == 12 || c.toNat == 13

/-- Value of a digit list read in base 10. -/
def digitsToNat (ds : List Char) : Nat :=
  ds.foldl (fun n c => 10 * n + (c.toNat - 48)) 0

/-- Core of parseFloat after leading whitespace and sign handling: reads the
longest prefix that is a decimal literal (digits, optional fraction,
optional exponent) or the literal Infinity; NaN when no digits occur. -/
def parseFloatCore (neg : Bool) (cs : List Char) : JSNum :=
  if cs.take 8 == "Infinity".toList then
    JSNum.inf neg
  else
    let intDs := cs.takeWhile Char.isDigit
    let cs1 := cs.drop intDs.length
    let fracDs :=
      match cs1 with
      | '.' :: rest => rest.takeWhile Char.isDigit
      | _ => []
    let cs2 :=
      match cs1 with
      | '.' :: rest => rest.drop fracDs.length
      | _ => cs1
    if intDs.isEmpty && fracDs.isEmpty then
      JSNum.nan
    else
      let exp : Int :=
        match cs2 with
        | e :: rest =>
          if e == 'e' || e == 'E' then
            let (eneg, rest2) :=
              match rest with
              | '-' :: r => (true, r)
              | '+' :: r => (false, r)
              | _ => (false, rest)
            let eDs := rest2.takeWhile Char.isDigit
            if eDs.isEmpty then 0
            else if eneg then -(digitsToNat eDs : Int) else (digitsToNat eDs : Int)
          else 0
        | [] => 0
      let mantNum : Nat := digitsToNat intDs * 10 ^ fracDs.length + digitsToNat fracDs
      let num : Int :=
        if 0 ≤ exp then (mantNum * 10 ^ exp.toNat : Nat) else (mantNum : Int)
      let scale : Nat :=
        if 0 ≤ exp then fracDs.length else fracDs.length + (-exp).toNat
      JSNum.finite (if neg then -num else num) scale

/-- JavaScript parseFloat: skip leading whitespace, read an optional sign,
then the longest valid decimal-literal prefix; NaN when none exists. -/
def parseFloat (s : String) : JSNum :=
  let cs := s.toList.dropWhile isJsSpace
  match cs with
  | '-' :: rest => parseFloatCore true rest
  | '+' :: rest => parseFloatCore false rest
  | _ => parseFloatCore false cs

/-! ## The TrafficCamera record (types.ts) -/

/-- TrafficCamera from types.ts, the stable domain record one sync cycle
produces. -/
structure TrafficCamera where
  id : String
  name : String
  description : String
  imageUrl : String
  region : String
  latitude : JSNum
  longitude : JSNum
  direction : String
  journeyLegs : List String
  type : CameraType
  status : String
  source : String
  severity : Severity
  trend : Trend
  confidence : Nat
  lastUpdate : String
deriving DecidableEq, Repr

/-! ## Constants and the fallback catalog (trafficService.ts lines 4-49) -/

def BASE_TRAFFIC_URL : String := "https://trafficnz.info"

/-- FALLBACK_CAMERAS from trafficService.ts: the fixed two-record catalog
returned when every proxy attempt fails.  The lastUpdate field is the
module-load wall-clock string, passed in as the parameter now. -/
def FALLBACK_CAMERAS (now : String) : List TrafficCamera :=
  [ { id := "FB-AKL-01"
      name := "SH1: Oteha Valley Rd"
      description := "Northbound coverage - Backup Uplink"
      imageUrl := "https://www.trafficnz.info/camera/images/20.jpg"
      region := "Auckland"
      latitude := JSNum.finite (-36723) 3
      longitude := JSNum.finite 174706 3
      direction := "North"
      journeyLegs := ["Auckland - North"]
      type := CameraType.feed
      status := "Operational"
      source := "Static Matrix Fallback"
      severity := Severity.low
      trend := Trend.stable
      confidence := 99
      lastUpdate := now },
    { id := "FB-AKL-02"
      name := "SH1: Harbour Bridge"
      description := "Clip-on lanes - Backup Uplink"
      imageUrl := "https://www.trafficnz.info/camera/images/24.jpg"
      region := "Auckland"
      latitude := JSNum.finite (-3683) 2
      longitude := JSNum.finite 17475 2
      direction := "South"
      journeyLegs := ["Auckland - Central"]
      type := CameraType.feed
      status := "Operational"
      source := "Static Matrix Fallback"
      severity := Severity.low
      trend := Trend.stable
      confidence := 99
      lastUpdate := now } ]

/-! ## Intelligence derivation (trafficService.ts lines 86-99) -/

/-- JavaScript String.startsWith, on the character lists of the strings. -/
def jsStartsWith (s p : String) : Bool :=
  p.toList.isPrefixOf s.toList

/-- JavaScript String.trim, removing whitespace at both ends (the ASCII
whitespace the feed and the guarded HTML signatures can contain). -/
def jsTrim (s : String) : String :=
  String.mk (((s.toList.dropWhile isJsSpace).reverse.dropWhile isJsSpace).reverse)

/-- ASCII case lowering of one character, the fragment of JavaScript
toLowerCase the keyword scan depends on. -/
def jsCharLower (c : Char) : Char :=
  if 65 ≤ c.toNat && c.toNat ≤ 90 then Char.ofNat (c.toNat + 32) else c

/-- JavaScript String.toLowerCase on the ASCII range. -/
def jsToLower (s : String) : String :=
  String.mk (s.toList.map jsCharLower)

/-- Checks whether sub occurs as a contiguous run inside the given
character list, scanning every suffix. -/
def containsRun (sub : List Char) : List Char → Bool
  | [] => sub.isEmpty
  | c :: rest => sub.isPrefixOf (c :: rest) || containsRun sub rest

/-- JavaScript String.prototype.includes: substring containment. -/
def jsIncludes (s sub : String) : Bool :=
  containsRun sub.toList s.toList

/-- The text determineIntelligence scans: description and status joined by a
space, lower-cased. -/
def intelligenceText (description status : String) : String :=
  jsToLower (description ++ " " ++ status)

/-- determineIntelligence from trafficService.ts: keyword classification of
the joined description/status text into a severity and a trend, with the
branch order of the source. -/
def determineIntelligence (description status : String) : Severity × Trend :=
  let text := intelligenceText description status
  let severity : Severity :=
    if jsIncludes text "heavy" || jsIncludes text "congestion" || jsIncludes text "blocked" then
      Severity.high
    else if jsIncludes text "slow" || jsIncludes text "moderate" || jsIncludes text "incident" then
      Severity.medium
    else if jsIncludes text "critical" || jsIncludes text "accident" || jsIncludes text "closure" then
      Severity.critical
    else Severity.low
  let trend : Trend :=
    if jsIncludes text "improving" || jsIncludes text "clearing" then
      Trend.improving
    else if jsIncludes text "building" || jsIncludes text "increasing" || jsIncludes text "escalating" then
      Trend.escalating
    else Trend.stable
  (severity, trend)

/-! ## Image URL canonicalization (trafficService.ts lines 207-218) -/

/-- The regular expression test from the source: the string is one or more
digits followed by exactly the text .jpg. -/
def isNumericJpg (s : String) : Bool :=
  let cs := s.toList
  let ds := cs.takeWhile Char.isDigit
  !ds.isEmpty && cs.drop ds.length == ['.', 'j', 'p', 'g']

/-- normalizeImageUrl from trafficService.ts: empty stays empty, an address
starting with http passes through, otherwise one leading slash is stripped
and the result is joined under the base address, with the bare
digits-plus-.jpg shape routed under /camera/images/. -/
def normalizeImageUrl (url : String) : String :=
  if url == "" then ""
  else if jsStartsWith url "http" then url
  else
    let cleanUrl := if jsStartsWith url "/" then url.drop 1 else url
    if isNumericJpg cleanUrl then
      BASE_TRAFFIC_URL ++ "/camera/images/" ++ cleanUrl
    else
      BASE_TRAFFIC_URL ++ "/" ++ cleanUrl

/-! ## Raw feed nodes and the external interfaces of parseTrafficXml -/

/-- One camera element of the parsed XML document, as seen through the
getVal helper of parseTrafficXml: each field holds the trimmed text content
of the corresponding selector, or the empty string when the element is
absent or its content is all whitespace (getVal returns "" in both cases).
The two coordinate fields keep the nested (location > latitude) and flat
(latitude) selector results separately, mirroring the source's fallback
chain. -/
structure RawNode where
  locationLatitude : String
  latitude : String
  locationLongitude : String
  longitude : String
  id : String
  name : String
  description : String
  imageUrl : String
  url : String
  region : String
  direction : String
  status : String
deriving DecidableEq, Repr

/-- Outcome of DOMParser.parseFromString on one input string: either the
document carries a parsererror element, or it is well formed and
querySelectorAll yields a list of trafficCamera/camera nodes.  DOMParser is
a browser facility external to the repository, so it enters the embedding
as a function String → XmlDoc. -/
inductive XmlDoc where
  | malformed
  | wellFormed (nodes : List RawNode)

/-- The external nondeterminism parseTrafficXml consumes, indexed by the
position of the node in the document: the Math.random id suffix, the
Math.floor(Math.random() * 15) confidence draw (always in 0..14 since
Math.random is in the half-open unit interval), and the wall-clock string
for lastUpdate. -/
structure RandomOracle where
  idSuffix : Nat → String
  confDraw : Nat → Fin 15
  timeString : Nat → String

/-- JavaScript || on strings as used through getVal chains: the left operand
unless it is the empty string. -/
def jsOr (a b : String) : String :=
  if a == "" then b else a

/-- The latitude resolution of parseTrafficXml: nested selector first, then
the flat one, then the literal "0", fed to parseFloat. -/
def resolveLat (n : RawNode) : JSNum :=
  parseFloat (jsOr (jsOr n.locationLatitude n.latitude) "0")

/-- The longitude resolution of parseTrafficXml, symmetric to resolveLat. -/
def resolveLng (n : RawNode) : JSNum :=
  parseFloat (jsOr (jsOr n.locationLongitude n.longitude) "0")

/-- The id a node receives: its own id text, or node- plus the random
suffix when the id is missing. -/
def resolveId (oracle : RandomOracle) (i : Nat) (n : RawNode) : String :=
  jsOr n.id ("node-" ++ oracle.idSuffix i)

/-- The record pushed for one node, field by field as in the source: every
display field falls back to its sentinel default through the getVal || chain,
severity and trend come from determineIntelligence on the defaulted
description and status, confidence is 85 plus the random draw. -/
def mkCamera (oracle : RandomOracle) (i : Nat) (n : RawNode) : TrafficCamera :=
  let description := jsOr n.description "Live matrix uplink"
  let status := jsOr n.status "Operational"
  let intel := determineIntelligence description status
  { id := resolveId oracle i n
    name := jsOr n.name "Surveillance Node"
    description := description
    imageUrl := normalizeImageUrl (jsOr n.imageUrl n.url)
    region := jsOr n.region "NZ Sector"
    latitude := resolveLat n
    longitude := resolveLng n
    direction := jsOr n.direction "N/A"
    journeyLegs := []
    type := CameraType.feed
    status := status
    source := "TrafficNZ REST v4"
    severity := intel.1
    trend := intel.2
    confidence := 85 + (oracle.confDraw i).val
    lastUpdate := oracle.timeString i }

/-- The body of the forEach loop of parseTrafficXml for one node at index i:
the record is pushed exactly when both resolved coordinates are truthy
(if (lat && lng)), otherwise nothing is produced. -/
def nodeToCamera (oracle : RandomOracle) (i : Nat) (n : RawNode) : Option TrafficCamera :=
  if jsTruthy (resolveLat n) && jsTruthy (resolveLng n) then
    some (mkCamera oracle i n)
  else
    none

/-- The forEach loop over all camera nodes of a well-formed document. -/
def parseNodes (oracle : RandomOracle) (nodes : List RawNode) : List TrafficCamera :=
  nodes.enum.filterMap (fun p => nodeToCamera oracle p.1 p.2)

/-- parseTrafficXml from trafficService.ts: a document with a parsererror
yields the empty list, otherwise every camera node with truthy coordinates
is normalized. -/
def parseTrafficXml (domParse : String → XmlDoc) (oracle : RandomOracle)
    (xmlString : String) : List TrafficCamera :=
  match domParse xmlString with
  | XmlDoc.malformed => []
  | XmlDoc.wellFormed nodes => parseNodes oracle nodes

/-- The well-formedness indicator of one parse: false exactly when the
DOMParser reported a parsererror for the input. -/
def xmlWellFormed (domParse : String → XmlDoc) (xmlString : String) : Bool :=
  match domParse xmlString with
  | XmlDoc.malformed => false
  | XmlDoc.wellFormed _ => true

/-! ## The proxy failover loop (trafficService.ts lines 104-142) -/

/-- Observable outcome of one proxy attempt, abstracting the network and the
response envelope: the fetch (or body read) threw, the response was not ok,
or a body text was obtained.  ok none models a JSON envelope whose contents
field is absent, leaving xmlText undefined. -/
inductive AttemptOutcome where
  | thrown
  | notOk
  | ok (xmlText : Option String)
deriving DecidableEq, Repr

/-- The HTML-error-page guard of fetchLiveCameras: a body is rejected when
it is empty or its trimmed text starts with an HTML document signature. -/
def invalidText (t : String) : Bool :=
  t == "" || jsStartsWith (jsTrim t) "<!DOCTYPE html" || jsStartsWith (jsTrim t) "<html"

/-- The for-of loop of fetchLiveCameras over the proxy pool, one
AttemptOutcome per configured proxy in order: a thrown fetch, a non-ok
response, an undefined or invalid body, and an empty parse all continue to
the next proxy; the first non-empty parse is returned; exhaustion returns
the fallback catalog. -/
def syncLoop (domParse : String → XmlDoc) (oracle : RandomOracle) (now : String) :
    List AttemptOutcome → List TrafficCamera
  | [] => FALLBACK_CAMERAS now
  | AttemptOutcome.thrown :: rest => syncLoop domParse oracle now rest
  | AttemptOutcome.notOk :: rest => syncLoop domParse oracle now rest
  | AttemptOutcome.ok none :: rest => syncLoop domParse oracle now rest
  | AttemptOutcome.ok (some xmlText) :: rest =>
    if invalidText xmlText then
      syncLoop domParse oracle now rest
    else
      let parsed := parseTrafficXml domParse oracle xmlText
      if 0 < parsed.length then parsed
      else syncLoop domParse oracle now rest

/-- fetchLiveCameras from trafficService.ts, with the external world (the
DOM parser, the random stream, the clock, and the per-proxy network
outcomes) passed in explicitly. -/
def fetchLiveCameras (domParse : String → XmlDoc) (oracle : RandomOracle)
    (now : String) (attempts : List AttemptOutcome) : List TrafficCamera :=
  syncLoop domParse oracle now attempts

/-- The cameras one attempt outcome contributes if the loop reaches the
parse stage for it: empty for every soft failure, the parse result for a
valid body. -/
def attemptParsed (domParse : String → XmlDoc) (oracle : RandomOracle) :
    AttemptOutcome → List TrafficCamera
  | AttemptOutcome.thrown => []
  | AttemptOutcome.notOk => []
  | AttemptOutcome.ok none => []
  | AttemptOutcome.ok (some t) =>
    if invalidText t then [] else parseTrafficXml domParse oracle t

/-! ## Concrete fixtures used to exercise the embedding -/

/-- A fixed instantiation of the external random stream and clock. -/
def defaultOracle : RandomOracle :=
  { idSuffix := fun _ => "abcde"
    confDraw := fun _ => 0
    timeString := fun _ => "12:00" }

/-- A feed node with nested coordinates resolving to (-36.8, 174.7) and an
explicit id. -/
def goodNode : RawNode :=
  { locationLatitude := "-36.8", latitude := "", locationLongitude := "174.7"
    longitude := "", id := "A1", name := "Cam", description := "", imageUrl := ""
    url := "", region := "", direction := "", status := "" }

/-- A feed node whose latitude text is "0" while its longitude resolves to
the valid value 174.7. -/
def zeroLatNode : RawNode :=
  { locationLatitude := "0", latitude := "", locationLongitude := "174.7"
    longitude := "", id := "Z1", name := "", description := "", imageUrl := ""
    url := "", region := "", direction := "", status := "" }

/-- A DOM parser under which every document is malformed. -/
def malformedDomParse : String → XmlDoc := fun _ => XmlDoc.malformed

/-- A DOM parser under which the document "ok" holds one valid node and
everything else is malformed. -/
def exampleDomParse : String → XmlDoc := fun s =>
  if s == "ok" then XmlDoc.wellFormed [goodNode] else XmlDoc.malformed

/-- A DOM parser whose sole document repeats the same node (same feed id)
twice. -/
def dupDomParse : String → XmlDoc := fun _ =>
  XmlDoc.wellFormed [goodNode, goodNode]

/-! ## Shared lemmas about the failover loop and the normalizer -/

/-- An attempt that contributes no cameras makes the loop move on to the
remaining proxies. -/
theorem syncLoop_cons_of_empty (domParse : String → XmlDoc) (oracle : RandomOracle)
    (now : String) (o : AttemptOutcome) (rest : List AttemptOutcome)
    (h : attemptParsed domParse oracle o = []) :
    syncLoop domParse oracle now (o :: rest) = syncLoop domParse oracle now rest := by
  cases o with
  | thrown => simp [syncLoop]
  | notOk => simp [syncLoop]
  | ok t =>
    cases t with
    | none => simp [syncLoop]
    | some s =>
      by_cases hv : invalidText s
      · simp [syncLoop, hv]
      · have h' : parseTrafficXml domParse oracle s = [] := by
          simpa [attemptParsed, hv] using h
        simp [syncLoop, hv, h']

/-- An attempt that contributes at least one camera ends the loop with
exactly that contribution. -/
theorem syncLoop_cons_of_nonempty (domParse : String → XmlDoc) (oracle : RandomOracle)
    (now : String) (o : AttemptOutcome) (rest : List AttemptOutcome)
    (h : attemptParsed domParse oracle o ≠ []) :
    syncLoop domParse oracle now (o :: rest) = attemptParsed domParse oracle o := by
  cases o with
  | thrown => simp [attemptParsed] at h
  | notOk => simp [attemptParsed] at h
  | ok t =>
    cases t with
    | none => simp [attemptParsed] at h
    | some s =>
      by_cases hv : invalidText s
      · simp [attemptParsed, hv] at h
      · simp only [attemptParsed, hv, if_false] at h ⊢
        have hlen : 0 < (parseTrafficXml domParse oracle s).length :=
          List.length_pos.mpr h
        simp [syncLoop, hv, hlen]

/-- Every run of the loop either degrades to the fallback catalog or returns
the non-empty contribution of one of the attempts. -/
theorem syncLoop_result (domParse : String → XmlDoc) (oracle : RandomOracle)
    (now : String) (attempts : List AttemptOutcome) :
    syncLoop domParse oracle now attempts = FALLBACK_CAMERAS now ∨
      ∃ o ∈ attempts, syncLoop domParse oracle now attempts = attemptParsed domParse oracle o ∧
        attemptParsed domParse oracle o ≠ [] := by
  induction attempts with
  | nil => exact Or.inl rfl
  | cons o rest ih =>
    by_cases h : attemptParsed domParse oracle o = []
    · rw [syncLoop_cons_of_empty domParse oracle now o rest h]
      rcases ih with hfb | ⟨o', ho', heq, hne⟩
      · exact Or.inl hfb
      · exact Or.inr ⟨o', List.mem_cons_of_mem _ ho', heq, hne⟩
    · rw [syncLoop_cons_of_nonempty domParse oracle now o rest h]
      exact Or.inr ⟨o, List.mem_cons_self _ _, rfl, h⟩

/-- Every camera of one parse pass comes from some node of the document via
nodeToCamera. -/
theorem mem_parseNodes (oracle : RandomOracle) (nodes : List RawNode)
    (c : TrafficCamera) (h : c ∈ parseNodes oracle nodes) :
    ∃ i n, nodeToCamera oracle i n = some c := by
  rcases List.mem_filterMap.mp h with ⟨⟨i, n⟩, _, heq⟩
  exact ⟨i, n, heq⟩

/-- Characterization of one successful node normalization: it happens
exactly under the truthy-coordinates guard and produces the mkCamera
record. -/
theorem nodeToCamera_eq_some (oracle : RandomOracle) (i : Nat) (n : RawNode)
    (c : TrafficCamera) :
    nodeToCamera oracle i n = some c ↔
      (jsTruthy (resolveLat n) = true ∧ jsTruthy (resolveLng n) = true ∧
        c = mkCamera oracle i n) := by
  unfold nodeToCamera
  by_cases h1 : jsTruthy (resolveLat n) = true
  · by_cases h2 : jsTruthy (resolveLng n) = true
    · simp [h1, h2, eq_comm]
    · simp [h1, h2]
  · simp [h1]

/-! ## Claim theorems -/

/-- C1: every execution of the sync cycle returns a non-empty list of
camera records: the first attempt contributing a non-empty normalized set
is returned, and otherwise the fixed fallback catalog (itself non-empty)
is, so no caller ever observes an empty result, even when every attempt
fails. -/
theorem fetchLiveCameras_never_empty (domParse : String → XmlDoc) (oracle : RandomOracle)
    (now : String) (attempts : List AttemptOutcome) :
    fetchLiveCameras domParse oracle now attempts ≠ [] ∧
      (fetchLiveCameras domParse oracle now attempts = FALLBACK_CAMERAS now ∨
        ∃ o ∈ attempts,
          fetchLiveCameras domParse oracle now attempts = attemptParsed domParse oracle o ∧
            attemptParsed domParse oracle o ≠ []) := by
  have h := syncLoop_result domParse oracle now attempts
  refine ⟨?_, h⟩
  rcases h with hfb | ⟨o, _, heq, hne⟩
  · intro hnil
    rw [fetchLiveCameras] at hnil
    rw [hfb] at hnil
    simp [FALLBACK_CAMERAS] at hnil
  · intro hnil
    rw [fetchLiveCameras] at hnil
    rw [heq] at hnil
    exact hne hnil

/-- C2: when every configured proxy attempt throws a transport error the
orchestrator terminates normally (it is a total function here) and returns
exactly the fallback catalog, never an error value. -/
theorem exhaustion_returns_fallback (domParse : String → XmlDoc) (oracle : RandomOracle)
    (now : String) (attempts : List AttemptOutcome)
    (h : ∀ o ∈ attempts, o = AttemptOutcome.thrown) :
    fetchLiveCameras domParse oracle now attempts = FALLBACK_CAMERAS now := by
  induction attempts with
  | nil => rfl
  | cons o rest ih =>
    have ho := h o (List.mem_cons_self o rest)
    subst ho
    have step := syncLoop_cons_of_empty domParse oracle now AttemptOutcome.thrown rest rfl
    calc fetchLiveCameras domParse oracle now (AttemptOutcome.thrown :: rest)
        = syncLoop domParse oracle now rest := step
      _ = FALLBACK_CAMERAS now := ih (fun x hx => h x (List.mem_cons_of_mem _ hx))

/-- Witness for C2: three thrown attempts yield exactly the fallback
catalog. -/
theorem exhaustion_returns_fallback_witness :
    (∀ o ∈ [AttemptOutcome.thrown, AttemptOutcome.thrown, AttemptOutcome.thrown],
        o = AttemptOutcome.thrown) ∧
      fetchLiveCameras malformedDomParse defaultOracle "12:00"
          [AttemptOutcome.thrown, AttemptOutcome.thrown, AttemptOutcome.thrown] =
        FALLBACK_CAMERAS "12:00" :=
  ⟨by decide, exhaustion_returns_fallback _ _ _ _ (by decide)⟩

/-- C3: for any ordering of the attempts, if every attempt before o
contributes nothing and o contributes a non-empty normalized set, the
orchestrator returns exactly o's set, and the attempts after o do not
matter (they are never reached). -/
theorem short_circuit_first_success (domParse : String → XmlDoc) (oracle : RandomOracle)
    (now : String) (pre : List AttemptOutcome) (o : AttemptOutcome)
    (post : List AttemptOutcome)
    (hpre : ∀ a ∈ pre, attemptParsed domParse oracle a = [])
    (ho : attemptParsed domParse oracle o ≠ []) :
    fetchLiveCameras domParse oracle now (pre ++ o :: post) =
      attemptParsed domParse oracle o := by
  induction pre with
  | nil => exact syncLoop_cons_of_nonempty domParse oracle now o post ho
  | cons a rest ih =>
    have ha := hpre a (List.mem_cons_self a rest)
    have step := syncLoop_cons_of_empty domParse oracle now a (rest ++ o :: post) ha
    calc fetchLiveCameras domParse oracle now ((a :: rest) ++ o :: post)
        = syncLoop domParse oracle now (rest ++ o :: post) := step
      _ = attemptParsed domParse oracle o := ih (fun x hx => hpre x (List.mem_cons_of_mem _ hx))

/-- Witness for C3: a failing first attempt, then a body parsing to one
camera, then a further attempt that is never needed. -/
theorem short_circuit_first_success_witness :
    (∀ a ∈ [AttemptOutcome.thrown], attemptParsed exampleDomParse defaultOracle a = []) ∧
      attemptParsed exampleDomParse defaultOracle (AttemptOutcome.ok (some "ok")) ≠ [] ∧
      fetchLiveCameras exampleDomParse defaultOracle "12:00"
          ([AttemptOutcome.thrown] ++ AttemptOutcome.ok (some "ok") :: [AttemptOutcome.notOk]) =
        attemptParsed exampleDomParse defaultOracle (AttemptOutcome.ok (some "ok")) :=
  ⟨by decide, by decide, short_circuit_first_success _ _ _ _ _ _ (by decide) (by decide)⟩

/-- C7: the parse stage is a total function of the input string; for an
input the DOM parser reports as malformed it yields the empty record list
and a false well-formedness indicator instead of an exception. -/
theorem malformed_document_safety (domParse : String → XmlDoc) (oracle : RandomOracle)
    (s : String) (h : domParse s = XmlDoc.malformed) :
    parseTrafficXml domParse oracle s = [] ∧ xmlWellFormed domParse s = false := by
  constructor
  · simp [parseTrafficXml, h]
  · simp [xmlWellFormed, h]

/-- Witness for C7: a concrete non-document string under a parser that
rejects everything. -/
theorem malformed_document_safety_witness :
    malformedDomParse "@@not-a-document@@" = XmlDoc.malformed ∧
      parseTrafficXml malformedDomParse defaultOracle "@@not-a-document@@" = [] ∧
      xmlWellFormed malformedDomParse "@@not-a-document@@" = false :=
  ⟨rfl, (malformed_document_safety malformedDomParse defaultOracle "@@not-a-document@@" rfl).1,
    (malformed_document_safety malformedDomParse defaultOracle "@@not-a-document@@" rfl).2⟩

/-- C4 counterexample: a node whose latitude text is "0" and whose
longitude text is "174.7" resolves to the finite pair (0, 174.7) — not the
(0,0) pair — yet normalization drops it, contradicting the claim that any
record whose coordinates resolve to finite values not forming the (0,0)
pair yields a camera record. -/
theorem coordinate_drop_counterexample :
    resolveLat zeroLatNode = JSNum.finite 0 0 ∧
      resolveLng zeroLatNode = JSNum.finite 1747 1 ∧
      ¬(resolveLat zeroLatNode = JSNum.finite 0 0 ∧ resolveLng zeroLatNode = JSNum.finite 0 0) ∧
      nodeToCamera defaultOracle 0 zeroLatNode = none := by decide

/-- C4 amended: normalization drops a raw record exactly when its resolved
latitude or its resolved longitude is JavaScript-falsy (NaN or zero) — so a
record with latitude 0 is dropped even when its longitude is a valid
nonzero coordinate — and every emitted record carries exactly the resolved
pair, both components truthy, so no record is emitted with a zero or NaN
coordinate. -/
theorem coordinate_drop_amended (oracle : RandomOracle) (i : Nat) (n : RawNode) :
    (nodeToCamera oracle i n = none ↔
      (jsTruthy (resolveLat n) = false ∨ jsTruthy (resolveLng n) = false)) ∧
    (∀ c, nodeToCamera oracle i n = some c →
      jsTruthy c.latitude = true ∧ jsTruthy c.longitude = true ∧
        c.latitude = resolveLat n ∧ c.longitude = resolveLng n) := by
  constructor
  · rcases Bool.eq_false_or_eq_true (jsTruthy (resolveLat n)) with h1 | h1 <;>
      rcases Bool.eq_false_or_eq_true (jsTruthy (resolveLng n)) with h2 | h2 <;>
      simp [nodeToCamera, h1, h2]
  · intro c hc
    rcases (nodeToCamera_eq_some oracle i n c).mp hc with ⟨h1, h2, rfl⟩
    exact ⟨h1, h2, rfl, rfl⟩

/-- Witness for C4 (amended): the dropped-record direction at the concrete
zero-latitude node. -/
theorem coordinate_drop_amended_witness :
    nodeToCamera defaultOracle 0 zeroLatNode = none :=
  (coordinate_drop_amended defaultOracle 0 zeroLatNode).1.mpr (Or.inl (by decide))

/-- C5: severity and trend of an emitted record are a pure deterministic
function of the description and status texts alone: two emitted records
built from nodes with identical description and status fields carry
identical severity and trend, whatever the random oracle or node positions,
and they equal the keyword classification of the record's own description
and status. -/
theorem intelligence_deterministic (o1 o2 : RandomOracle) (i1 i2 : Nat)
    (n1 n2 : RawNode) (c1 c2 : TrafficCamera)
    (h1 : nodeToCamera o1 i1 n1 = some c1) (h2 : nodeToCamera o2 i2 n2 = some c2)
    (hd : n1.description = n2.description) (hs : n1.status = n2.status) :
    c1.severity = c2.severity ∧ c1.trend = c2.trend ∧
      (c1.severity, c1.trend) = determineIntelligence c1.description c1.status := by
  rcases (nodeToCamera_eq_some o1 i1 n1 c1).mp h1 with ⟨_, _, rfl⟩
  rcases (nodeToCamera_eq_some o2 i2 n2 c2).mp h2 with ⟨_, _, rfl⟩
  refine ⟨?_, ?_, rfl⟩
  · simp [mkCamera, hd, hs]
  · simp [mkCamera, hd, hs]

/-- A second oracle instantiation, drawing different random values. -/
def otherOracle : RandomOracle :=
  { idSuffix := fun _ => "zzzzz"
    confDraw := fun _ => 7
    timeString := fun _ => "23:59" }

/-- A node with flat-schema coordinates (40, 5) and the same (empty)
description and status fields as goodNode. -/
def flatNode : RawNode :=
  { locationLatitude := "", latitude := "40", locationLongitude := ""
    longitude := "5", id := "B2", name := "", description := "", imageUrl := ""
    url := "", region := "", direction := "", status := "" }

/-- Witness for C5: two different oracles, positions and coordinates, same
description and status texts, identical derived severity and trend. -/
theorem intelligence_deterministic_witness :
    (mkCamera defaultOracle 0 goodNode).severity = (mkCamera otherOracle 5 flatNode).severity ∧
      (mkCamera defaultOracle 0 goodNode).trend = (mkCamera otherOracle 5 flatNode).trend ∧
      ((mkCamera defaultOracle 0 goodNode).severity, (mkCamera defaultOracle 0 goodNode).trend) =
        determineIntelligence (mkCamera defaultOracle 0 goodNode).description
          (mkCamera defaultOracle 0 goodNode).status :=
  intelligence_deterministic defaultOracle otherOracle 0 5 goodNode flatNode _ _
    (by decide) (by decide) rfl rfl

/-- C6 counterexample: the claim maps any non-absolute, non-slash,
non-numeric-filename value under the image path prefix, so it expects
"foo" to canonicalize to the /camera/images/ path, but the code joins it
directly under the base address. -/
theorem image_default_path_counterexample :
    normalizeImageUrl "foo" = "https://trafficnz.info/foo" ∧
      normalizeImageUrl "foo" ≠ "https://trafficnz.info/camera/images/foo" := by decide

/-- C6 amended: an absolute (http-prefixed) address is returned unchanged;
for any other non-empty address one leading slash is stripped and the
remainder goes under base + /camera/images/ when it matches the
digits-plus-.jpg pattern and directly under base + / otherwise; in
particular "20.jpg" and "/camera/images/24.jpg" land on the image path,
"https://x/y.jpg" is unchanged, and "foo" becomes base + "/foo" (not the
image path the original claim states). -/
theorem image_canonicalization_amended :
    (∀ url, jsStartsWith url "http" = true → normalizeImageUrl url = url) ∧
    (∀ url, url ≠ "" → jsStartsWith url "http" = false → jsStartsWith url "/" = false →
      isNumericJpg url = true →
      normalizeImageUrl url = BASE_TRAFFIC_URL ++ "/camera/images/" ++ url) ∧
    (∀ url, url ≠ "" → jsStartsWith url "http" = false → jsStartsWith url "/" = false →
      isNumericJpg url = false →
      normalizeImageUrl url = BASE_TRAFFIC_URL ++ "/" ++ url) ∧
    (∀ url, jsStartsWith url "http" = false → jsStartsWith url "/" = true →
      normalizeImageUrl url =
        (if isNumericJpg (url.drop 1) then BASE_TRAFFIC_URL ++ "/camera/images/" ++ url.drop 1
         else BASE_TRAFFIC_URL ++ "/" ++ url.drop 1)) ∧
    normalizeImageUrl "20.jpg" = "https://trafficnz.info/camera/images/20.jpg" ∧
    normalizeImageUrl "/camera/images/24.jpg" = "https://trafficnz.info/camera/images/24.jpg" ∧
    normalizeImageUrl "https://x/y.jpg" = "https://x/y.jpg" ∧
    normalizeImageUrl "foo" = "https://trafficnz.info/foo" := by
  refine ⟨?_, ?_, ?_, ?_, by decide, by decide, by decide, by decide⟩
  · intro url h
    by_cases he : url = ""
    · subst he; exact absurd h (by decide)
    · simp [normalizeImageUrl, he, h]
  · intro url he h hs hn
    simp [normalizeImageUrl, he, h, hs, hn]
  · intro url he h hs hn
    simp [normalizeImageUrl, he, h, hs, hn]
  · intro url h hs
    by_cases he : url = ""
    · subst he; exact absurd hs (by decide)
    · simp [normalizeImageUrl, he, h, hs]

/-- Witness for C6 (amended): a fresh numeric filename canonicalizes onto
the image path. -/
theorem image_canonicalization_amended_witness :
    normalizeImageUrl "987.jpg" = "https://trafficnz.info/camera/images/987.jpg" :=
  image_canonicalization_amended.2.1 "987.jpg" (by decide) (by decide) (by decide) (by decide)

/-- The id an emitted record carries is never empty: either the feed id was
non-empty, or the generated node- id is used. -/
theorem resolveId_ne_empty (oracle : RandomOracle) (i : Nat) (n : RawNode) :
    resolveId oracle i n ≠ "" := by
  unfold resolveId jsOr
  by_cases h : n.id = ""
  · simp only [h, beq_self_eq_true, if_true]
    intro heq
    have hd : ("node-" ++ oracle.idSuffix i).data = "".data := congrArg String.data heq
    rw [String.data_append] at hd
    simp at hd
  · simp [h]

/-- Every camera of one attempt's contribution comes from some node of the
parsed document. -/
theorem mem_attemptParsed (domParse : String → XmlDoc) (oracle : RandomOracle)
    (o : AttemptOutcome) (c : TrafficCamera) (h : c ∈ attemptParsed domParse oracle o) :
    ∃ i n, nodeToCamera oracle i n = some c := by
  cases o with
  | thrown => simp [attemptParsed] at h
  | notOk => simp [attemptParsed] at h
  | ok t =>
    cases t with
    | none => simp [attemptParsed] at h
    | some s =>
      by_cases hv : invalidText s
      · simp [attemptParsed, hv] at h
      · simp only [attemptParsed, hv, if_false] at h
        unfold parseTrafficXml at h
        cases hd : domParse s with
        | malformed => rw [hd] at h; simp at h
        | wellFormed nodes => rw [hd] at h; exact mem_parseNodes oracle nodes c h

/-- Field bounds of the record one node produces: non-empty id, confidence
at most 100. -/
theorem mkCamera_bounds (oracle : RandomOracle) (i : Nat) (n : RawNode) :
    (mkCamera oracle i n).id ≠ "" ∧ (mkCamera oracle i n).confidence ≤ 100 := by
  constructor
  · exact resolveId_ne_empty oracle i n
  · show 85 + (oracle.confDraw i).val ≤ 100
    have := (oracle.confDraw i).isLt
    omega

/-- C8 counterexample: a feed document carrying the same id on two nodes
yields a sync result whose ids are not pairwise distinct — the code
performs no deduplication, so the stable-record invariant's uniqueness part
fails as stated. -/
theorem duplicate_ids_counterexample :
    ((fetchLiveCameras dupDomParse defaultOracle "12:00" [AttemptOutcome.ok (some "w")]).map
        TrafficCamera.id) = ["A1", "A1"] ∧
      ¬ ((fetchLiveCameras dupDomParse defaultOracle "12:00"
            [AttemptOutcome.ok (some "w")]).map TrafficCamera.id).Nodup := by decide

/-- C8 amended: every record of a sync result has a non-empty id (generated
when the source id is absent), JavaScript-truthy coordinates, and a
confidence of at most 100 (severity and trend are total fields by
construction); the ids are pairwise distinct provided every attempt's
normalized contribution has pairwise-distinct ids — without that proviso
duplicate feed ids propagate into the result. -/
theorem sync_invariant_amended (domParse : String → XmlDoc) (oracle : RandomOracle)
    (now : String) (attempts : List AttemptOutcome)
    (h : ∀ o ∈ attempts, ((attemptParsed domParse oracle o).map TrafficCamera.id).Nodup) :
    (∀ c ∈ fetchLiveCameras domParse oracle now attempts,
        c.id ≠ "" ∧ jsTruthy c.latitude = true ∧ jsTruthy c.longitude = true ∧
          c.confidence ≤ 100) ∧
      ((fetchLiveCameras domParse oracle now attempts).map TrafficCamera.id).Nodup := by
  rcases syncLoop_result domParse oracle now attempts with hfb | ⟨o, ho, heq, _⟩
  · rw [show fetchLiveCameras domParse oracle now attempts = FALLBACK_CAMERAS now from hfb]
    constructor
    · intro c hc
      rcases List.mem_cons.mp hc with hc | hc
      · subst hc; exact ⟨by simp, rfl, rfl, by norm_num⟩
      · rcases List.mem_cons.mp hc with hc | hc
        · subst hc; exact ⟨by simp, rfl, rfl, by norm_num⟩
        · cases hc
    · show (["FB-AKL-01", "FB-AKL-02"] : List String).Nodup
      decide
  · rw [show fetchLiveCameras domParse oracle now attempts =
        attemptParsed domParse oracle o from heq]
    constructor
    · intro c hc
      rcases mem_attemptParsed domParse oracle o c hc with ⟨i, n, hn⟩
      rcases (nodeToCamera_eq_some oracle i n c).mp hn with ⟨h1, h2, rfl⟩
      rcases mkCamera_bounds oracle i n with ⟨hid, hconf⟩
      exact ⟨hid, h1, h2, hconf⟩
    · exact h o ho

/-- Witness for C8 (amended): with no attempts at all the proviso holds
vacuously and the fallback result satisfies the invariant. -/
theorem sync_invariant_amended_witness :
    (∀ o ∈ ([] : List AttemptOutcome),
        ((attemptParsed malformedDomParse defaultOracle o).map TrafficCamera.id).Nodup) ∧
      ((∀ c ∈ fetchLiveCameras malformedDomParse defaultOracle "12:00" [],
          c.id ≠ "" ∧ jsTruthy c.latitude = true ∧ jsTruthy c.longitude = true ∧
            c.confidence ≤ 100) ∧
        ((fetchLiveCameras malformedDomParse defaultOracle "12:00" []).map
            TrafficCamera.id).Nodup) :=
  ⟨by simp, sync_invariant_amended malformedDomParse defaultOracle "12:00" [] (by simp)⟩

/-- C9: when a raw record carries no image reference in either alternate
field, the canonicalizer receives the empty string and returns it
unchanged, so the emitted record's imageUrl is empty rather than joined to
the base address or the image path. -/
theorem missing_image_reference_empty (oracle : RandomOracle) (i : Nat) (n : RawNode)
    (c : TrafficCamera) (h1 : n.imageUrl = "") (h2 : n.url = "")
    (h3 : nodeToCamera oracle i n = some c) :
    c.imageUrl = "" ∧ normalizeImageUrl "" = "" := by
  rcases (nodeToCamera_eq_some oracle i n c).mp h3 with ⟨_, _, rfl⟩
  constructor
  · simp [mkCamera, h1, h2, jsOr, normalizeImageUrl]
  · rfl

/-- Witness for C9: the concrete node with both image fields empty is
emitted with an empty imageUrl. -/
theorem missing_image_reference_empty_witness :
    goodNode.imageUrl = "" ∧ goodNode.url = "" ∧
      (mkCamera defaultOracle 0 goodNode).imageUrl = "" :=
  ⟨rfl, rfl,
    (missing_image_reference_empty defaultOracle 0 goodNode
        (mkCamera defaultOracle 0 goodNode) rfl rfl (by decide)).1⟩

/-- C10: in the implemented precedence the high-keyword group dominates the
critical group — any text containing a high-group keyword is classified
high, never critical — and critical is assigned only when no high-group and
no medium-group keyword occurs in the scanned text. -/
theorem severity_precedence :
    (∀ d s, (jsIncludes (intelligenceText d s) "heavy" = true ∨
        jsIncludes (intelligenceText d s) "congestion" = true ∨
        jsIncludes (intelligenceText d s) "blocked" = true) →
      (determineIntelligence d s).1 = Severity.high ∧
        (determineIntelligence d s).1 ≠ Severity.critical) ∧
    (∀ d s, (determineIntelligence d s).1 = Severity.critical →
      jsIncludes (intelligenceText d s) "heavy" = false ∧
      jsIncludes (intelligenceText d s) "congestion" = false ∧
      jsIncludes (intelligenceText d s) "blocked" = false ∧
      jsIncludes (intelligenceText d s) "slow" = false ∧
      jsIncludes (intelligenceText d s) "moderate" = false ∧
      jsIncludes (intelligenceText d s) "incident" = false) := by
  constructor
  · intro d s h
    rcases h with h | h | h <;> simp [determineIntelligence, h]
  · intro d s h
    unfold determineIntelligence at h
    rcases Bool.eq_false_or_eq_true (jsIncludes (intelligenceText d s) "heavy") with h1 | h1 <;>
    rcases Bool.eq_false_or_eq_true (jsIncludes (intelligenceText d s) "congestion") with h2 | h2 <;>
    rcases Bool.eq_false_or_eq_true (jsIncludes (intelligenceText d s) "blocked") with h3 | h3 <;>
    rcases Bool.eq_false_or_eq_true (jsIncludes (intelligenceText d s) "slow") with h4 | h4 <;>
    rcases Bool.eq_false_or_eq_true (jsIncludes (intelligenceText d s) "moderate") with h5 | h5 <;>
    rcases Bool.eq_false_or_eq_true (jsIncludes (intelligenceText d s) "incident") with h6 | h6 <;>
    simp [h1, h2, h3, h4, h5, h6] at h ⊢

/-- Witness for C10: a text containing both a high-group and a
critical-group keyword is classified high, not critical. -/
theorem severity_precedence_witness :
    (determineIntelligence "heavy accident" "").1 = Severity.high ∧
      (determineIntelligence "heavy accident" "").1 ≠ Severity.critical :=
  severity_precedence.1 "heavy accident" "" (Or.inl (by decide))

end NZTrafficCams
